import Mathlib

/-!
Verification of `mock-vllm.py`, a minimal FastAPI mock of an
inference-serving API.  The script exposes three routes:

* `GET /health` — returns `{"status": "ok"}` or `{"status": "not ok"}`
  from a module-level boolean flag `status` (initialized `True`).
* `POST /v1/chat/completions` — validates the JSON body against the
  pydantic model `ChatRequest` (a `model : str` and a
  `messages : List[ChatMessage]` with `role : str`, `content : str`),
  then returns a canned completion response.
* `POST /restart` — registers `kill` (which signals the whole process
  group) as a FastAPI background task and returns
  `{"status": "restarting"}`; background tasks run after the response
  is handed off.

The embedding below mirrors the script: JSON values are an inductive
type, pydantic validation is an `Option`-returning parser (pydantic's
default config ignores unknown fields and, for `str` fields, rejects
non-string values; a failed validation makes FastAPI answer 422 before
the handler body runs), wall-clock time is an explicit `now : Nat`
parameter, and the mutable module-level flag is a `ServerState` record
threaded through a `handle` step function.
-/

namespace MockVllm

/-- A JSON value: the bodies exchanged over the HTTP surface. -/
inductive Json where
  | null
  | bool (b : Bool)
  | num (n : Int)
  | str (s : String)
  | arr (elems : List Json)
  | obj (fields : List (String × Json))

/-- First binding of a key in a JSON object's field list (Python dicts
obtained from parsed JSON have unique keys, so first = only). -/
def lookupField : List (String × Json) → String → Option Json
  | [], _ => none
  | (k, v) :: rest, key => if k = key then some v else lookupField rest key

/-- Python source, `class ChatMessage(BaseModel)`: `role: str`, `content: str`. -/
structure ChatMessage where
  role : String
  content : String
deriving DecidableEq

/-- Python source, `class ChatRequest(BaseModel)`: `model: str`,
`messages: List[ChatMessage]`. -/
structure ChatRequest where
  model : String
  messages : List ChatMessage
deriving DecidableEq

/-- Pydantic validation of one element of `messages`: it must be an
object carrying string fields `role` and `content`; any other fields
are ignored (pydantic's default `extra="ignore"`). -/
def parseChatMessage : Json → Option ChatMessage
  | Json.obj fields =>
      match lookupField fields "role", lookupField fields "content" with
      | some (Json.str r), some (Json.str c) => some { role := r, content := c }
      | _, _ => none
  | _ => none

/-- Pydantic validation of the `messages` array, element by element. -/
def parseMessages : List Json → Option (List ChatMessage)
  | [] => some []
  | j :: rest =>
      match parseChatMessage j, parseMessages rest with
      | some m, some ms => some (m :: ms)
      | _, _ => none

/-- Pydantic validation of the whole request body against `ChatRequest`:
an object with a string `model` and an array `messages` of valid
message objects; unknown extra fields are ignored. -/
def parseChatRequest : Json → Option ChatRequest
  | Json.obj fields =>
      match lookupField fields "model", lookupField fields "messages" with
      | some (Json.str m), some (Json.arr js) =>
          match parseMessages js with
          | some ms => some { model := m, messages := ms }
          | none => none
      | _, _ => none
  | _ => none

/-- Python source, one `choices` entry of the canned reply. -/
structure Choice where
  index : Int
  message : ChatMessage
  finish_reason : String
deriving DecidableEq

/-- The handler's return value in `chat_completions`, field for field. -/
structure ChatCompletionResponse where
  id : String
  object : String
  created : Nat
  model : String
  choices : List Choice
deriving DecidableEq

/-- Python source, `chat_completions(req)`: the dict literal returned by
the handler; `int(time.time())` is the explicit `now` parameter. -/
def chat_completions (now : Nat) (req : ChatRequest) : ChatCompletionResponse :=
  { id := "mock-id"
    object := "chat.completion"
    created := now
    model := req.model
    choices := [{ index := 0
                  message := { role := "assistant", content := "Hello! This is a mock reply." }
                  finish_reason := "stop" }] }

/-- Serialization of a `choices` entry to the JSON actually sent. -/
def choiceToJson (c : Choice) : Json :=
  Json.obj [("index", Json.num c.index),
            ("message", Json.obj [("role", Json.str c.message.role),
                                  ("content", Json.str c.message.content)]),
            ("finish_reason", Json.str c.finish_reason)]

/-- Serialization of the completion response to the JSON actually sent. -/
def responseToJson (r : ChatCompletionResponse) : Json :=
  Json.obj [("id", Json.str r.id),
            ("object", Json.str r.object),
            ("created", Json.num r.created),
            ("model", Json.str r.model),
            ("choices", Json.arr (r.choices.map choiceToJson))]

/-- An HTTP response: status code and JSON body. -/
structure HttpResponse where
  statusCode : Nat
  body : Json

/-- FastAPI's default answer when pydantic validation fails:
422 Unprocessable Entity with a framework-generated `detail` body
(whose exact content the script does not customize). -/
def validationErrorResponse : HttpResponse :=
  { statusCode := 422, body := Json.obj [("detail", Json.arr [])] }

/-- The `/v1/chat/completions` route: FastAPI validates the body against
`ChatRequest`; only on success does the handler body run (with 200). -/
def chatCompletionsRoute (now : Nat) (body : Json) : HttpResponse :=
  match parseChatRequest body with
  | some req => { statusCode := 200, body := responseToJson (chat_completions now req) }
  | none => validationErrorResponse

/-- Python source, `health()`: reads the module-level flag. -/
def health (status : Bool) : Json :=
  Json.obj [("status", Json.str (if status then "ok" else "not ok"))]

/-- The deferred side effect registered by `/restart`: `kill()` runs
`os.killpg(os.getpgid(os.getpid()), signal.SIGINT)`. -/
inductive Action where
  | killProcessGroup
deriving DecidableEq

/-- Process-wide mutable state of the script: the module-level `status`
flag (Python line `status = True`). -/
structure ServerState where
  status : Bool
deriving DecidableEq

/-- The state at process start: `status = True`. -/
def initialState : ServerState := { status := true }

/-- An incoming HTTP request, dispatched on method+path. -/
inductive Request where
  | getHealth
  | postChatCompletions (body : Json)
  | postRestart

/-- Result of running one route handler: the response, the module state
afterwards, and the background tasks the handler registered. -/
structure RouteResult where
  response : HttpResponse
  newState : ServerState
  backgroundTasks : List Action

/-- Dispatch of one request to its handler, exactly as the script's
three route decorators wire them up.  No handler writes to the flag;
only `/restart` registers a background task. -/
def handle (st : ServerState) (now : Nat) (r : Request) : RouteResult :=
  match r with
  | Request.getHealth =>
      { response := { statusCode := 200, body := health st.status }
        newState := st
        backgroundTasks := [] }
  | Request.postChatCompletions body =>
      { response := chatCompletionsRoute now body
        newState := st
        backgroundTasks := [] }
  | Request.postRestart =>
      { response := { statusCode := 200, body := Json.obj [("status", Json.str "restarting")] }
        newState := st
        backgroundTasks := [Action.killProcessGroup] }

/-- An observable event while serving one request: either the response
is handed off to the transport, or a deferred background task runs. -/
inductive Event where
  | respond (r : HttpResponse)
  | runTask (a : Action)

/-- Serving one request, with FastAPI's `BackgroundTasks` semantics:
the response is handed off first, then the registered background tasks
run, in order. -/
def serve (st : ServerState) (now : Nat) (r : Request) : List Event × ServerState :=
  let res := handle st now r
  (Event.respond res.response :: res.backgroundTasks.map Event.runTask, res.newState)

/-- A whole session: the module state after handling a list of requests
(each with the clock value at its arrival) from a starting state. -/
def run : ServerState → List (Nat × Request) → ServerState
  | st, [] => st
  | st, (now, r) :: rest => run (handle st now r).newState rest

/-- Shared fact: no handler writes the module state. -/
theorem handle_newState (st : ServerState) (now : Nat) (r : Request) :
    (handle st now r).newState = st := by
  cases r <;> rfl

/-- Shared fact: a session leaves the module state untouched. -/
theorem run_eq (st : ServerState) (reqs : List (Nat × Request)) :
    run st reqs = st := by
  induction reqs generalizing st with
  | nil => rfl
  | cons p rest ih =>
      obtain ⟨now, r⟩ := p
      rw [run, handle_newState, ih]

/-- Claim C1: for every syntactically valid body for
`POST /v1/chat/completions` (a string `model` and a list of
`{role, content}` message objects), the route answers 200, its `model`
field echoes the request's `model` exactly, and
`choices[0].message.content` is the literal
"Hello! This is a mock reply.", whatever `messages` holds. -/
theorem chat_echo_and_canned_reply (now : Nat) (body : Json) (req : ChatRequest)
    (h : parseChatRequest body = some req) :
    (chatCompletionsRoute now body).statusCode = 200 ∧
    (chatCompletionsRoute now body).body = responseToJson (chat_completions now req) ∧
    (chat_completions now req).model = req.model ∧
    (chat_completions now req).choices.head?.map (fun c => c.message.content) =
      some "Hello! This is a mock reply." := by
  simp [chatCompletionsRoute, h, chat_completions]

/-- Witness for C1 at a concrete valid request. -/
theorem chat_echo_and_canned_reply_witness :
    parseChatRequest
        (Json.obj [("model", Json.str "test-model"),
                   ("messages", Json.arr [Json.obj [("role", Json.str "user"),
                                                    ("content", Json.str "hi")]])]) =
      some { model := "test-model", messages := [{ role := "user", content := "hi" }] } ∧
    (chatCompletionsRoute 7
        (Json.obj [("model", Json.str "test-model"),
                   ("messages", Json.arr [Json.obj [("role", Json.str "user"),
                                                    ("content", Json.str "hi")]])])).statusCode = 200 :=
  ⟨rfl, (chat_echo_and_canned_reply 7
    (Json.obj [("model", Json.str "test-model"),
               ("messages", Json.arr [Json.obj [("role", Json.str "user"),
                                                ("content", Json.str "hi")]])])
    { model := "test-model", messages := [{ role := "user", content := "hi" }] } rfl).1⟩

/-- Claim C2: `GET /health` answers 200 with body
`{"status": "ok"}` when the flag is true and `{"status": "not ok"}`
otherwise; and since the flag starts true and no handler writes it,
after any session from the initial state the answer is exactly
`{"status": "ok"}`. -/
theorem health_reports_flag_always_ok :
    (∀ st now, (handle st now Request.getHealth).response =
        { statusCode := 200,
          body := Json.obj [("status", Json.str (if st.status then "ok" else "not ok"))] }) ∧
    (∀ reqs now, (handle (run initialState reqs) now Request.getHealth).response =
        { statusCode := 200, body := Json.obj [("status", Json.str "ok")] }) := by
  refine ⟨fun st now => rfl, fun reqs now => ?_⟩
  rw [run_eq]
  rfl

/-- Claim C3: in every successful completion response, `id` is the
fixed string "mock-id", `object` is "chat.completion", `choices` has
exactly one entry, and that entry has index 0, message role
"assistant" and finish_reason "stop". -/
theorem chat_response_fixed_fields (now : Nat) (req : ChatRequest) :
    (chat_completions now req).id = "mock-id" ∧
    (chat_completions now req).object = "chat.completion" ∧
    (chat_completions now req).choices.length = 1 ∧
    (chat_completions now req).choices.head?.map Choice.index = some 0 ∧
    (chat_completions now req).choices.head?.map (fun c => c.message.role) = some "assistant" ∧
    (chat_completions now req).choices.head?.map Choice.finish_reason = some "stop" := by
  simp [chat_completions]

/-- Claim C4: a body that fails `ChatRequest` validation (in
particular one missing `model`) makes the route answer FastAPI's fixed
422 validation error — a 4xx — without the handler body running (the
answer is the fixed error response, independent of the clock); and the
`/health` and `/restart` routes always answer 200. -/
theorem invalid_body_rejected (now : Nat) (body : Json)
    (h : parseChatRequest body = none) :
    chatCompletionsRoute now body = validationErrorResponse ∧
    400 ≤ (chatCompletionsRoute now body).statusCode ∧
    (chatCompletionsRoute now body).statusCode < 500 ∧
    (∀ st n, (handle st n Request.getHealth).response.statusCode = 200) ∧
    (∀ st n, (handle st n Request.postRestart).response.statusCode = 200) := by
  refine ⟨?_, ?_, ?_, fun st n => rfl, fun st n => rfl⟩ <;>
    simp [chatCompletionsRoute, h, validationErrorResponse]

/-- Witness for C4 at a concrete body missing `model`. -/
theorem invalid_body_rejected_witness :
    parseChatRequest (Json.obj [("messages", Json.arr [])]) = none ∧
    chatCompletionsRoute 3 (Json.obj [("messages", Json.arr [])]) = validationErrorResponse :=
  ⟨rfl, (invalid_body_rejected 3 (Json.obj [("messages", Json.arr [])]) rfl).1⟩

/-- Claim C5: `POST /restart` answers 200 with `{"status": "restarting"}`
and schedules the process-group kill as a background task: while
serving the request, the response handoff event comes first and the
kill runs strictly after it, never before; the handler itself leaves
the state untouched. -/
theorem restart_deferred_kill (st : ServerState) (now : Nat) :
    (serve st now Request.postRestart).1 =
      [Event.respond { statusCode := 200,
                       body := Json.obj [("status", Json.str "restarting")] },
       Event.runTask Action.killProcessGroup] ∧
    (serve st now Request.postRestart).2 = st :=
  ⟨rfl, rfl⟩

/-- Claim C6: the liveness flag starts true, no route handler ever
writes the module state, and after any session of requests from the
initial state the flag is still true. -/
theorem liveness_flag_never_written :
    initialState.status = true ∧
    (∀ st now r, (handle st now r).newState = st) ∧
    (∀ reqs, (run initialState reqs).status = true) := by
  refine ⟨rfl, handle_newState, fun reqs => ?_⟩
  rw [run_eq]
  rfl

/-- Claim C7: a body whose `messages` is the empty array passes
validation, and the route's answer for it is 200 and identical to the
answer for any valid non-empty `messages` array under the same `model`
and clock. -/
theorem empty_messages_accepted (now : Nat) (m : String) (js : List Json)
    (ms : List ChatMessage) (h : parseMessages js = some ms) :
    parseChatRequest (Json.obj [("model", Json.str m), ("messages", Json.arr [])]) =
      some { model := m, messages := [] } ∧
    chatCompletionsRoute now (Json.obj [("model", Json.str m), ("messages", Json.arr [])]) =
      chatCompletionsRoute now (Json.obj [("model", Json.str m), ("messages", Json.arr js)]) ∧
    (chatCompletionsRoute now
        (Json.obj [("model", Json.str m), ("messages", Json.arr [])])).statusCode = 200 := by
  refine ⟨rfl, ?_, rfl⟩
  simp [chatCompletionsRoute, parseChatRequest, lookupField, parseMessages, h,
        chat_completions]

/-- Witness for C7 at a concrete non-empty `messages` array. -/
theorem empty_messages_accepted_witness :
    parseMessages [Json.obj [("role", Json.str "user"), ("content", Json.str "hi")]] =
      some [{ role := "user", content := "hi" }] ∧
    chatCompletionsRoute 5 (Json.obj [("model", Json.str "m"), ("messages", Json.arr [])]) =
      chatCompletionsRoute 5
        (Json.obj [("model", Json.str "m"),
                   ("messages", Json.arr [Json.obj [("role", Json.str "user"),
                                                    ("content", Json.str "hi")]])]) :=
  ⟨rfl, (empty_messages_accepted 5 "m"
    [Json.obj [("role", Json.str "user"), ("content", Json.str "hi")]]
    [{ role := "user", content := "hi" }] rfl).2.1⟩

/-- Claim C8: `created` is exactly the clock value read when the
response is constructed; whenever that read is within 5 seconds of the
time the request was received, `created` is within 5 seconds of
receipt time. -/
theorem created_is_clock_at_construction (now : Nat) (req : ChatRequest)
    (treceipt : Nat) (h1 : now ≤ treceipt + 5) (h2 : treceipt ≤ now + 5) :
    (chat_completions now req).created = now ∧
    (chat_completions now req).created ≤ treceipt + 5 ∧
    treceipt ≤ (chat_completions now req).created + 5 :=
  ⟨rfl, h1, h2⟩

/-- Witness for C8 at a concrete clock and receipt time. -/
theorem created_is_clock_at_construction_witness :
    (chat_completions 10 { model := "m", messages := [] }).created = 10 :=
  (created_is_clock_at_construction 10 { model := "m", messages := [] } 8
    (by decide) (by decide)).1

/-- Claim C9: the handler is deterministic up to the timestamp — two
requests with equal `model` fields (any `messages`, any clock) get
responses equal in every field except possibly `created`. -/
theorem deterministic_up_to_created (t1 t2 : Nat) (r1 r2 : ChatRequest)
    (h : r1.model = r2.model) :
    (chat_completions t1 r1).id = (chat_completions t2 r2).id ∧
    (chat_completions t1 r1).object = (chat_completions t2 r2).object ∧
    (chat_completions t1 r1).model = (chat_completions t2 r2).model ∧
    (chat_completions t1 r1).choices = (chat_completions t2 r2).choices := by
  simp [chat_completions, h]

/-- Witness for C9 at two concrete requests differing in `messages`. -/
theorem deterministic_up_to_created_witness :
    (chat_completions 0 { model := "m", messages := [] }).choices =
      (chat_completions 9 { model := "m",
                            messages := [{ role := "user", content := "x" }] }).choices :=
  (deterministic_up_to_created 0 9 { model := "m", messages := [] }
    { model := "m", messages := [{ role := "user", content := "x" }] } rfl).2.2.2

/-- Claim C10: a body object carrying the required `model` and
`messages` bindings plus any extra unknown fields still validates —
the extras are ignored and the route answers the normal 200 canned
response; likewise a message object with extra fields beyond `role`
and `content` still validates. -/
theorem extra_fields_ignored (now : Nat) (fields : List (String × Json))
    (m : String) (js : List Json) (ms : List ChatMessage)
    (hm : lookupField fields "model" = some (Json.str m))
    (hmsg : lookupField fields "messages" = some (Json.arr js))
    (hparse : parseMessages js = some ms) :
    parseChatRequest (Json.obj fields) = some { model := m, messages := ms } ∧
    chatCompletionsRoute now (Json.obj fields) =
      { statusCode := 200,
        body := responseToJson (chat_completions now { model := m, messages := ms }) } ∧
    (∀ mfields r c, lookupField mfields "role" = some (Json.str r) →
        lookupField mfields "content" = some (Json.str c) →
        parseChatMessage (Json.obj mfields) = some { role := r, content := c }) := by
  refine ⟨?_, ?_, ?_⟩
  · simp [parseChatRequest, hm, hmsg, hparse]
  · simp [chatCompletionsRoute, parseChatRequest, hm, hmsg, hparse]
  · intro mfields r c hr hc
    simp [parseChatMessage, hr, hc]

/-- Witness for C10 at a concrete body with extra top-level and
message-level fields. -/
theorem extra_fields_ignored_witness :
    parseChatRequest
        (Json.obj [("model", Json.str "m"),
                   ("temperature", Json.num 1),
                   ("messages", Json.arr [Json.obj [("role", Json.str "user"),
                                                    ("content", Json.str "hi"),
                                                    ("name", Json.str "bob")]]),
                   ("stream", Json.bool false)]) =
      some { model := "m", messages := [{ role := "user", content := "hi" }] } :=
  (extra_fields_ignored 0
    [("model", Json.str "m"),
     ("temperature", Json.num 1),
     ("messages", Json.arr [Json.obj [("role", Json.str "user"),
                                      ("content", Json.str "hi"),
                                      ("name", Json.str "bob")]]),
     ("stream", Json.bool false)]
    "m" _ _ rfl rfl rfl).1

end MockVllm
